import Mathlib

/-!
Verification of the Flowforge backend (a CRUD HTTP API over four tables:
tasks, departments, roles, functions) against its specification.

The storage layer is embedded as an explicit state `DB`: each table is a
list of rows kept in insertion order (the relational store's natural order),
together with a per-table counter for the next primary key, mirroring the
autoincrementing `id` columns of `models.py`.  Timestamps are modelled as
natural numbers; the `server_default=func.now()` on `created_at` and the
`onupdate=func.now()` on `updated_at` become an explicit `now` argument.

Every repository function of `crud.py` takes the database state and returns
its result together with the (possibly updated) state, mirroring the
SQLAlchemy `Session` each Python function receives.  The HTTP handlers of
`routers.py` and `org_routers.py` are embedded as functions into
`Except Nat`, where `Except.error 404` models `HTTPException(404)`.
-/

namespace Models

/-- Row of the `tasks` table (`models.Task`). -/
structure Task where
  id : Nat
  title : String
  description : Option String
  completed : Bool
  created_at : Nat
  updated_at : Option Nat
deriving DecidableEq

/-- Row of the `departments` table (`models.Department`). -/
structure Department where
  id : Nat
  name : String
  description : Option String
  created_at : Nat
  updated_at : Option Nat
deriving DecidableEq

/-- Row of the `roles` table (`models.Role`); `department_id` is a foreign
key into `departments`. -/
structure Role where
  id : Nat
  name : String
  description : Option String
  department_id : Nat
  created_at : Nat
  updated_at : Option Nat
deriving DecidableEq

/-- Row of the `functions` table (`models.Function`); `role_id` is a foreign
key into `roles`. -/
structure Func where
  id : Nat
  name : String
  description : Option String
  role_id : Nat
  created_at : Nat
  updated_at : Option Nat
deriving DecidableEq

/-- Create payload for a Task (`schemas.TaskCreate`): the base fields only. -/
structure TaskCreate where
  title : String
  description : Option String
  completed : Bool
deriving DecidableEq

/-- Create payload for a Department (`schemas.DepartmentCreate`). -/
structure DepartmentCreate where
  name : String
  description : Option String
deriving DecidableEq

/-- Create payload for a Role (`schemas.RoleCreate`). -/
structure RoleCreate where
  name : String
  description : Option String
  department_id : Nat
deriving DecidableEq

/-- Create payload for a Function (`schemas.FunctionCreate`). -/
structure FuncCreate where
  name : String
  description : Option String
  role_id : Nat
deriving DecidableEq

end Models

open Models

/-- The relational store: four tables in insertion order plus the next
primary key of each table. -/
structure DB where
  tasks : List Task
  departments : List Department
  roles : List Role
  functions : List Func
  nextTaskId : Nat
  nextDepartmentId : Nat
  nextRoleId : Nat
  nextFuncId : Nat
deriving DecidableEq

namespace Crud

/-- `crud.get_task`: `db.query(Task).filter(Task.id == task_id).first()`. -/
def get_task (db : DB) (task_id : Nat) : Option Task × DB :=
  (db.tasks.find? (fun t => t.id == task_id), db)

/-- `crud.get_tasks`: `db.query(Task).offset(skip).limit(limit).all()`
(defaults in the source: skip=0, limit=100). -/
def get_tasks (db : DB) (skip limit : Nat) : List Task × DB :=
  ((db.tasks.drop skip).take limit, db)

/-- `crud.create_task`: inserts a row built from the payload; storage
assigns the id and `created_at`, `updated_at` starts out null. -/
def create_task (db : DB) (task : TaskCreate) (now : Nat) : Task × DB :=
  let db_task : Task :=
    { id := db.nextTaskId, title := task.title, description := task.description,
      completed := task.completed, created_at := now, updated_at := none }
  (db_task,
   { db with tasks := db.tasks ++ [db_task], nextTaskId := db.nextTaskId + 1 })

/-- The `setattr` loop of `crud.update_task` plus the `onupdate` timestamp:
overwrite every base field and set `updated_at` to the mutation time. -/
def applyTaskUpdate (t : Task) (p : TaskCreate) (now : Nat) : Task :=
  { t with
    title := p.title
    description := p.description
    completed := p.completed
    updated_at := some now }

/-- `crud.update_task`: look the row up; if absent return null with no
side effect, otherwise overwrite the base fields and commit. -/
def update_task (db : DB) (task_id : Nat) (task : TaskCreate) (now : Nat) :
    Option Task × DB :=
  match (get_task db task_id).1 with
  | none => (none, db)
  | some t =>
    (some (applyTaskUpdate t task now),
     { db with
       tasks := db.tasks.map
         (fun x => if x.id == task_id then applyTaskUpdate x task now else x) })

/-- `crud.delete_task`: look the row up; if absent return null with no side
effect, otherwise delete it and return its last state. -/
def delete_task (db : DB) (task_id : Nat) : Option Task × DB :=
  match (get_task db task_id).1 with
  | none => (none, db)
  | some t =>
    (some t, { db with tasks := db.tasks.filter (fun x => x.id != task_id) })

/-- `crud.get_department`. -/
def get_department (db : DB) (department_id : Nat) : Option Department × DB :=
  (db.departments.find? (fun d => d.id == department_id), db)

/-- `crud.get_departments`. -/
def get_departments (db : DB) (skip limit : Nat) : List Department × DB :=
  ((db.departments.drop skip).take limit, db)

/-- `crud.create_department`. -/
def create_department (db : DB) (department : DepartmentCreate) (now : Nat) :
    Department × DB :=
  let db_department : Department :=
    { id := db.nextDepartmentId, name := department.name,
      description := department.description, created_at := now, updated_at := none }
  (db_department,
   { db with
     departments := db.departments ++ [db_department]
     nextDepartmentId := db.nextDepartmentId + 1 })

/-- The `setattr` loop of `crud.update_department` plus the `onupdate`
timestamp. -/
def applyDepartmentUpdate (d : Department) (p : DepartmentCreate) (now : Nat) :
    Department :=
  { d with name := p.name, description := p.description, updated_at := some now }

/-- `crud.update_department`. -/
def update_department (db : DB) (department_id : Nat) (department : DepartmentCreate)
    (now : Nat) : Option Department × DB :=
  match (get_department db department_id).1 with
  | none => (none, db)
  | some d =>
    (some (applyDepartmentUpdate d department now),
     { db with
       departments := db.departments.map
         (fun x => if x.id == department_id then applyDepartmentUpdate x department now
                   else x) })

/-- `crud.delete_department`.  `db.delete` on a Department cascades per the
`cascade="all, delete-orphan"` relationships of `models.py`: the
department's roles are deleted, and transitively the functions of those
roles. -/
def delete_department (db : DB) (department_id : Nat) : Option Department × DB :=
  match (get_department db department_id).1 with
  | none => (none, db)
  | some d =>
    let removedRoleIds :=
      (db.roles.filter (fun r => r.department_id == department_id)).map Role.id
    (some d,
     { db with
       departments := db.departments.filter (fun x => x.id != department_id),
       roles := db.roles.filter (fun r => r.department_id != department_id),
       functions := db.functions.filter
         (fun f => !(removedRoleIds.contains f.role_id)) })

/-- `crud.get_role`. -/
def get_role (db : DB) (role_id : Nat) : Option Role × DB :=
  (db.roles.find? (fun r => r.id == role_id), db)

/-- `crud.get_roles`. -/
def get_roles (db : DB) (skip limit : Nat) : List Role × DB :=
  ((db.roles.drop skip).take limit, db)

/-- `crud.get_roles_by_department`: filter by `department_id`, then the same
offset/limit pagination as `get_roles`. -/
def get_roles_by_department (db : DB) (department_id skip limit : Nat) :
    List Role × DB :=
  (((db.roles.filter (fun r => r.department_id == department_id)).drop skip).take limit,
   db)

/-- `crud.create_role`. -/
def create_role (db : DB) (role : RoleCreate) (now : Nat) : Role × DB :=
  let db_role : Role :=
    { id := db.nextRoleId, name := role.name, description := role.description,
      department_id := role.department_id, created_at := now, updated_at := none }
  (db_role,
   { db with roles := db.roles ++ [db_role], nextRoleId := db.nextRoleId + 1 })

/-- The `setattr` loop of `crud.update_role` plus the `onupdate` timestamp. -/
def applyRoleUpdate (r : Role) (p : RoleCreate) (now : Nat) : Role :=
  { r with
    name := p.name
    description := p.description
    department_id := p.department_id
    updated_at := some now }

/-- `crud.update_role`. -/
def update_role (db : DB) (role_id : Nat) (role : RoleCreate) (now : Nat) :
    Option Role × DB :=
  match (get_role db role_id).1 with
  | none => (none, db)
  | some r =>
    (some (applyRoleUpdate r role now),
     { db with
       roles := db.roles.map
         (fun x => if x.id == role_id then applyRoleUpdate x role now else x) })

/-- `crud.delete_role`: cascades to the role's functions per
`Role.functions`'s `cascade="all, delete-orphan"`. -/
def delete_role (db : DB) (role_id : Nat) : Option Role × DB :=
  match (get_role db role_id).1 with
  | none => (none, db)
  | some r =>
    (some r,
     { db with
       roles := db.roles.filter (fun x => x.id != role_id),
       functions := db.functions.filter (fun f => f.role_id != role_id) })

/-- `crud.get_function`. -/
def get_function (db : DB) (function_id : Nat) : Option Func × DB :=
  (db.functions.find? (fun f => f.id == function_id), db)

/-- `crud.get_functions`. -/
def get_functions (db : DB) (skip limit : Nat) : List Func × DB :=
  ((db.functions.drop skip).take limit, db)

/-- `crud.get_functions_by_role`: filter by `role_id`, then offset/limit. -/
def get_functions_by_role (db : DB) (role_id skip limit : Nat) : List Func × DB :=
  (((db.functions.filter (fun f => f.role_id == role_id)).drop skip).take limit, db)

/-- `crud.create_function`. -/
def create_function (db : DB) (function : FuncCreate) (now : Nat) : Func × DB :=
  let db_function : Func :=
    { id := db.nextFuncId, name := function.name,
      description := function.description, role_id := function.role_id,
      created_at := now, updated_at := none }
  (db_function,
   { db with
     functions := db.functions ++ [db_function]
     nextFuncId := db.nextFuncId + 1 })

/-- The `setattr` loop of `crud.update_function` plus the `onupdate`
timestamp. -/
def applyFuncUpdate (f : Func) (p : FuncCreate) (now : Nat) : Func :=
  { f with
    name := p.name
    description := p.description
    role_id := p.role_id
    updated_at := some now }

/-- `crud.update_function`. -/
def update_function (db : DB) (function_id : Nat) (function : FuncCreate)
    (now : Nat) : Option Func × DB :=
  match (get_function db function_id).1 with
  | none => (none, db)
  | some f =>
    (some (applyFuncUpdate f function now),
     { db with
       functions := db.functions.map
         (fun x => if x.id == function_id then applyFuncUpdate x function now else x) })

/-- `crud.delete_function`. -/
def delete_function (db : DB) (function_id : Nat) : Option Func × DB :=
  match (get_function db function_id).1 with
  | none => (none, db)
  | some f =>
    (some f,
     { db with functions := db.functions.filter (fun x => x.id != function_id) })

end Crud

/-- `schemas.DepartmentWithRoles`: the nested response shape of
`GET /departments/{id}` — the department's own fields plus its `roles`
relationship. -/
structure DepartmentWithRoles where
  id : Nat
  name : String
  description : Option String
  created_at : Nat
  updated_at : Option Nat
  roles : List Role
deriving DecidableEq

/-- `schemas.RoleWithFunctions`: the nested response shape of
`GET /roles/{id}` — the role's own fields plus its `functions`
relationship. -/
structure RoleWithFunctions where
  id : Nat
  name : String
  description : Option String
  department_id : Nat
  created_at : Nat
  updated_at : Option Nat
  functions : List Func
deriving DecidableEq

/-- Serialization of an ORM Department into `DepartmentWithRoles`:
pydantic reads the `roles` relationship, i.e. the rows of `roles` whose
`department_id` equals the department's id. -/
def departmentWithRoles (db : DB) (d : Department) : DepartmentWithRoles :=
  { id := d.id, name := d.name, description := d.description,
    created_at := d.created_at, updated_at := d.updated_at,
    roles := db.roles.filter (fun r => r.department_id == d.id) }

/-- Serialization of an ORM Role into `RoleWithFunctions`: pydantic reads
the `functions` relationship, i.e. the rows of `functions` whose `role_id`
equals the role's id. -/
def roleWithFunctions (db : DB) (r : Role) : RoleWithFunctions :=
  { id := r.id, name := r.name, description := r.description,
    department_id := r.department_id, created_at := r.created_at,
    updated_at := r.updated_at,
    functions := db.functions.filter (fun f => f.role_id == r.id) }

namespace Routers

/-- `routers.read_tasks` (`GET /api/tasks/`). -/
def read_tasks (db : DB) (skip limit : Nat) : Except Nat (List Task) × DB :=
  let p := Crud.get_tasks db skip limit
  (Except.ok p.1, p.2)

/-- `routers.create_task` (`POST /api/tasks/`). -/
def create_task (db : DB) (task : TaskCreate) (now : Nat) : Except Nat Task × DB :=
  let p := Crud.create_task db task now
  (Except.ok p.1, p.2)

/-- `routers.read_task` (`GET /api/tasks/{task_id}`): 404 when the task is
absent. -/
def read_task (db : DB) (task_id : Nat) : Except Nat Task × DB :=
  match Crud.get_task db task_id with
  | (none, db2) => (Except.error 404, db2)
  | (some t, db2) => (Except.ok t, db2)

/-- `routers.update_task` (`PUT /api/tasks/{task_id}`): 404 when the task
is absent. -/
def update_task (db : DB) (task_id : Nat) (task : TaskCreate) (now : Nat) :
    Except Nat Task × DB :=
  match Crud.update_task db task_id task now with
  | (none, db2) => (Except.error 404, db2)
  | (some t, db2) => (Except.ok t, db2)

/-- `routers.delete_task` (`DELETE /api/tasks/{task_id}`): 404 when the
task is absent. -/
def delete_task (db : DB) (task_id : Nat) : Except Nat Task × DB :=
  match Crud.delete_task db task_id with
  | (none, db2) => (Except.error 404, db2)
  | (some t, db2) => (Except.ok t, db2)

end Routers

namespace OrgRouters

/-- `org_routers.read_departments` (`GET /api/organization/departments/`). -/
def read_departments (db : DB) (skip limit : Nat) :
    Except Nat (List Department) × DB :=
  let p := Crud.get_departments db skip limit
  (Except.ok p.1, p.2)

/-- `org_routers.create_department`. -/
def create_department (db : DB) (department : DepartmentCreate) (now : Nat) :
    Except Nat Department × DB :=
  let p := Crud.create_department db department now
  (Except.ok p.1, p.2)

/-- `org_routers.read_department` (`GET /departments/{department_id}`):
404 when absent, otherwise the nested `DepartmentWithRoles` shape. -/
def read_department (db : DB) (department_id : Nat) :
    Except Nat DepartmentWithRoles × DB :=
  match Crud.get_department db department_id with
  | (none, db2) => (Except.error 404, db2)
  | (some d, db2) => (Except.ok (departmentWithRoles db2 d), db2)

/-- `org_routers.update_department`: 404 when absent. -/
def update_department (db : DB) (department_id : Nat)
    (department : DepartmentCreate) (now : Nat) : Except Nat Department × DB :=
  match Crud.update_department db department_id department now with
  | (none, db2) => (Except.error 404, db2)
  | (some d, db2) => (Except.ok d, db2)

/-- `org_routers.delete_department`: 404 when absent. -/
def delete_department (db : DB) (department_id : Nat) :
    Except Nat Department × DB :=
  match Crud.delete_department db department_id with
  | (none, db2) => (Except.error 404, db2)
  | (some d, db2) => (Except.ok d, db2)

/-- `org_routers.read_roles` (`GET /api/organization/roles/`). -/
def read_roles (db : DB) (skip limit : Nat) : Except Nat (List Role) × DB :=
  let p := Crud.get_roles db skip limit
  (Except.ok p.1, p.2)

/-- `org_routers.read_roles_by_department`
(`GET /departments/{department_id}/roles/`): delegates to
`get_roles_by_department` with no check that the department exists. -/
def read_roles_by_department (db : DB) (department_id skip limit : Nat) :
    Except Nat (List Role) × DB :=
  let p := Crud.get_roles_by_department db department_id skip limit
  (Except.ok p.1, p.2)

/-- `org_routers.create_role`. -/
def create_role (db : DB) (role : RoleCreate) (now : Nat) :
    Except Nat Role × DB :=
  let p := Crud.create_role db role now
  (Except.ok p.1, p.2)

/-- `org_routers.read_role` (`GET /roles/{role_id}`): 404 when absent,
otherwise the nested `RoleWithFunctions` shape. -/
def read_role (db : DB) (role_id : Nat) : Except Nat RoleWithFunctions × DB :=
  match Crud.get_role db role_id with
  | (none, db2) => (Except.error 404, db2)
  | (some r, db2) => (Except.ok (roleWithFunctions db2 r), db2)

/-- `org_routers.update_role`: 404 when absent. -/
def update_role (db : DB) (role_id : Nat) (role : RoleCreate) (now : Nat) :
    Except Nat Role × DB :=
  match Crud.update_role db role_id role now with
  | (none, db2) => (Except.error 404, db2)
  | (some r, db2) => (Except.ok r, db2)

/-- `org_routers.delete_role`: 404 when absent. -/
def delete_role (db : DB) (role_id : Nat) : Except Nat Role × DB :=
  match Crud.delete_role db role_id with
  | (none, db2) => (Except.error 404, db2)
  | (some r, db2) => (Except.ok r, db2)

/-- `org_routers.read_functions` (`GET /api/organization/functions/`). -/
def read_functions (db : DB) (skip limit : Nat) : Except Nat (List Func) × DB :=
  let p := Crud.get_functions db skip limit
  (Except.ok p.1, p.2)

/-- `org_routers.read_functions_by_role`
(`GET /roles/{role_id}/functions/`): delegates to `get_functions_by_role`
with no check that the role exists. -/
def read_functions_by_role (db : DB) (role_id skip limit : Nat) :
    Except Nat (List Func) × DB :=
  let p := Crud.get_functions_by_role db role_id skip limit
  (Except.ok p.1, p.2)

/-- `org_routers.create_function`. -/
def create_function (db : DB) (function : FuncCreate) (now : Nat) :
    Except Nat Func × DB :=
  let p := Crud.create_function db function now
  (Except.ok p.1, p.2)

/-- `org_routers.read_function`: 404 when absent. -/
def read_function (db : DB) (function_id : Nat) : Except Nat Func × DB :=
  match Crud.get_function db function_id with
  | (none, db2) => (Except.error 404, db2)
  | (some f, db2) => (Except.ok f, db2)

/-- `org_routers.update_function`: 404 when absent. -/
def update_function (db : DB) (function_id : Nat) (function : FuncCreate)
    (now : Nat) : Except Nat Func × DB :=
  match Crud.update_function db function_id function now with
  | (none, db2) => (Except.error 404, db2)
  | (some f, db2) => (Except.ok f, db2)

/-- `org_routers.delete_function`: 404 when absent. -/
def delete_function (db : DB) (function_id : Nat) : Except Nat Func × DB :=
  match Crud.delete_function db function_id with
  | (none, db2) => (Except.error 404, db2)
  | (some f, db2) => (Except.ok f, db2)

end OrgRouters

/-- Total number of rows across the four tables. -/
def rowCount (db : DB) : Nat :=
  db.tasks.length + db.departments.length + db.roles.length + db.functions.length

/-- Well-formedness of a database state: primary keys are unique per table
and below the table's next id (as an autoincrementing primary key column
guarantees), and the two foreign keys of `models.py` are intact. -/
def WF (db : DB) : Prop :=
  (db.tasks.map Task.id).Nodup ∧ (∀ t ∈ db.tasks, t.id < db.nextTaskId) ∧
  (db.departments.map Department.id).Nodup ∧
  (∀ d ∈ db.departments, d.id < db.nextDepartmentId) ∧
  (db.roles.map Role.id).Nodup ∧ (∀ r ∈ db.roles, r.id < db.nextRoleId) ∧
  (db.functions.map Func.id).Nodup ∧ (∀ f ∈ db.functions, f.id < db.nextFuncId) ∧
  (∀ r ∈ db.roles, ∃ d ∈ db.departments, d.id = r.department_id) ∧
  (∀ f ∈ db.functions, ∃ r ∈ db.roles, r.id = f.role_id)

instance (db : DB) : Decidable (WF db) := by
  unfold WF
  infer_instance

/-! Concrete sample data used to instantiate the theorems. -/

/-- A sample department row. -/
def dW : Department :=
  { id := 1, name := "Engineering", description := none, created_at := 0,
    updated_at := none }

/-- A sample role row under `dW`. -/
def rW1 : Role :=
  { id := 1, name := "Backend", description := none, department_id := 1,
    created_at := 0, updated_at := none }

/-- Another sample role row under `dW`. -/
def rW2 : Role :=
  { id := 2, name := "Frontend", description := none, department_id := 1,
    created_at := 0, updated_at := none }

/-- A sample function row under `rW1`. -/
def fW : Func :=
  { id := 1, name := "API design", description := none, role_id := 1,
    created_at := 0, updated_at := none }

/-- A sample task row. -/
def tW : Task :=
  { id := 1, title := "Buy milk", description := none, completed := false,
    created_at := 0, updated_at := none }

/-- A sample well-formed database: one task, one department with two roles,
one function under the first role. -/
def dbW : DB :=
  { tasks := [tW], departments := [dW], roles := [rW1, rW2], functions := [fW],
    nextTaskId := 2, nextDepartmentId := 2, nextRoleId := 3, nextFuncId := 2 }

/-- A sample task payload. -/
def tpW : TaskCreate := { title := "Buy milk", description := none, completed := true }

/-- A sample department payload. -/
def dpW : DepartmentCreate := { name := "Sales", description := none }

/-- A sample role payload. -/
def rpW : RoleCreate := { name := "Design", description := none, department_id := 1 }

/-- A sample function payload. -/
def fpW : FuncCreate := { name := "Mockups", description := none, role_id := 1 }

/-- The task `tW` after the sample update `tpW` at time 7. -/
def tU : Task := Crud.applyTaskUpdate tW tpW 7


section ListLemmas

variable {α : Type} {β : Type}

/-- Splitting a list's length by a predicate: the rows a SQL `DELETE ...
WHERE p` removes plus the rows it keeps account for the whole table. -/
lemma length_filter_add_length_filter_not (p : α → Bool) (l : List α) :
    (l.filter p).length + (l.filter (fun a => !(p a))).length = l.length := by
  induction l with
  | nil => simp
  | cons a l ih =>
    by_cases h : p a <;> simp [List.filter_cons, h] <;> omega

/-- In a table whose `f`-column (e.g. the primary key) has no duplicates,
filtering for the `f`-value of a present row yields exactly that row. -/
lemma filter_key_eq_singleton (f : α → Nat) (l : List α)
    (hl : (l.map f).Nodup) (a : α) (ha : a ∈ l) :
    l.filter (fun x => f x == f a) = [a] := by
  induction l with
  | nil => cases ha
  | cons b l ih =>
    rw [List.map_cons, List.nodup_cons] at hl
    rcases List.mem_cons.mp ha with rfl | hmem
    · have hnil : l.filter (fun x => f x == f a) = [] := by
        rw [List.filter_eq_nil_iff]
        intro x hx hfx
        have hfx2 : f x = f a := beq_iff_eq.mp hfx
        exact hl.1 (hfx2 ▸ List.mem_map_of_mem f hx)
      simp [List.filter_cons, hnil]
    · have hne : (f b == f a) = false := by
        apply beq_eq_false_iff_ne.mpr
        intro hEq
        exact hl.1 (hEq ▸ List.mem_map_of_mem f hmem)
      simp [List.filter_cons, hne, ih hl.2 hmem]

end ListLemmas

/-- C10: the read operations `get`, `list` and `list_by_parent` never modify
stored state — for every entity type and arguments, the database state they
return is exactly the one they received. -/
theorem C10_reads_leave_storage_unchanged (db : DB) (id skip limit : Nat) :
    (Crud.get_task db id).2 = db ∧ (Crud.get_tasks db skip limit).2 = db ∧
    (Crud.get_department db id).2 = db ∧
    (Crud.get_departments db skip limit).2 = db ∧
    (Crud.get_role db id).2 = db ∧ (Crud.get_roles db skip limit).2 = db ∧
    (Crud.get_roles_by_department db id skip limit).2 = db ∧
    (Crud.get_function db id).2 = db ∧ (Crud.get_functions db skip limit).2 = db ∧
    (Crud.get_functions_by_role db id skip limit).2 = db :=
  ⟨rfl, rfl, rfl, rfl, rfl, rfl, rfl, rfl, rfl, rfl⟩

/-- C5: for every entity type, `list(0, 100)` is the first 100 entities of
the table in its stored (insertion) order, `list(skip, limit)` is the
unrestricted table with its first `skip` elements dropped and capped at
`limit` elements, and `create` appends at the end of the table, so stored
order is creation order. -/
theorem C5_pagination_drops_and_caps (db : DB) (skip limit now : Nat)
    (tp : TaskCreate) (dp : DepartmentCreate) (rp : RoleCreate) (fp : FuncCreate) :
    ((Crud.get_tasks db 0 100).1 = db.tasks.take 100 ∧
     (Crud.get_tasks db skip limit).1 = (db.tasks.drop skip).take limit ∧
     (Crud.create_task db tp now).2.tasks
       = db.tasks ++ [(Crud.create_task db tp now).1]) ∧
    ((Crud.get_departments db 0 100).1 = db.departments.take 100 ∧
     (Crud.get_departments db skip limit).1 = (db.departments.drop skip).take limit ∧
     (Crud.create_department db dp now).2.departments
       = db.departments ++ [(Crud.create_department db dp now).1]) ∧
    ((Crud.get_roles db 0 100).1 = db.roles.take 100 ∧
     (Crud.get_roles db skip limit).1 = (db.roles.drop skip).take limit ∧
     (Crud.create_role db rp now).2.roles
       = db.roles ++ [(Crud.create_role db rp now).1]) ∧
    ((Crud.get_functions db 0 100).1 = db.functions.take 100 ∧
     (Crud.get_functions db skip limit).1 = (db.functions.drop skip).take limit ∧
     (Crud.create_function db fp now).2.functions
       = db.functions ++ [(Crud.create_function db fp now).1]) :=
  ⟨⟨rfl, rfl, rfl⟩, ⟨rfl, rfl, rfl⟩, ⟨rfl, rfl, rfl⟩, ⟨rfl, rfl, rfl⟩⟩

/-- C2: for every entity type independently, `update` on an id with no
matching row of that type returns not-found and leaves the database
completely unchanged, and the `PUT` handler surfaces this as HTTP 404
(also with the state unchanged); whether the id matches a row of some
other entity type is irrelevant. -/
theorem C2_update_nonexistent_is_404_no_side_effect (db : DB) (id now : Nat)
    (tp : TaskCreate) (dp : DepartmentCreate) (rp : RoleCreate) (fp : FuncCreate) :
    ((Crud.get_task db id).1 = none →
       Crud.update_task db id tp now = (none, db) ∧
       Routers.update_task db id tp now = (Except.error 404, db)) ∧
    ((Crud.get_department db id).1 = none →
       Crud.update_department db id dp now = (none, db) ∧
       OrgRouters.update_department db id dp now = (Except.error 404, db)) ∧
    ((Crud.get_role db id).1 = none →
       Crud.update_role db id rp now = (none, db) ∧
       OrgRouters.update_role db id rp now = (Except.error 404, db)) ∧
    ((Crud.get_function db id).1 = none →
       Crud.update_function db id fp now = (none, db) ∧
       OrgRouters.update_function db id fp now = (Except.error 404, db)) := by
  refine ⟨?_, ?_, ?_, ?_⟩
  · intro ht
    have h1 : Crud.update_task db id tp now = (none, db) := by
      unfold Crud.update_task
      rw [ht]
    refine ⟨h1, ?_⟩
    unfold Routers.update_task
    rw [h1]
  · intro hd
    have h2 : Crud.update_department db id dp now = (none, db) := by
      unfold Crud.update_department
      rw [hd]
    refine ⟨h2, ?_⟩
    unfold OrgRouters.update_department
    rw [h2]
  · intro hr
    have h3 : Crud.update_role db id rp now = (none, db) := by
      unfold Crud.update_role
      rw [hr]
    refine ⟨h3, ?_⟩
    unfold OrgRouters.update_role
    rw [h3]
  · intro hf
    have h4 : Crud.update_function db id fp now = (none, db) := by
      unfold Crud.update_function
      rw [hf]
    refine ⟨h4, ?_⟩
    unfold OrgRouters.update_function
    rw [h4]

/-- Witness for C2: in the sample database id 2 is a live Role but matches
no Task, Department or Function, and updating id 2 for each of those three
entity types is a 404 with the state unchanged; updating the absent role
id 99 behaves the same for roles. -/
theorem C2_witness :
    (Crud.get_role dbW 2).1 = some rW2 ∧
    ((Crud.get_task dbW 2).1 = none ∧
     Crud.update_task dbW 2 tpW 7 = (none, dbW) ∧
     Routers.update_task dbW 2 tpW 7 = (Except.error 404, dbW)) ∧
    ((Crud.get_department dbW 2).1 = none ∧
     Crud.update_department dbW 2 dpW 7 = (none, dbW) ∧
     OrgRouters.update_department dbW 2 dpW 7 = (Except.error 404, dbW)) ∧
    ((Crud.get_function dbW 2).1 = none ∧
     Crud.update_function dbW 2 fpW 7 = (none, dbW) ∧
     OrgRouters.update_function dbW 2 fpW 7 = (Except.error 404, dbW)) ∧
    ((Crud.get_role dbW 99).1 = none ∧
     Crud.update_role dbW 99 rpW 7 = (none, dbW) ∧
     OrgRouters.update_role dbW 99 rpW 7 = (Except.error 404, dbW)) :=
  ⟨by decide,
   ⟨by decide,
    ((C2_update_nonexistent_is_404_no_side_effect dbW 2 7 tpW dpW rpW fpW).1
      (by decide)).1,
    ((C2_update_nonexistent_is_404_no_side_effect dbW 2 7 tpW dpW rpW fpW).1
      (by decide)).2⟩,
   ⟨by decide,
    ((C2_update_nonexistent_is_404_no_side_effect dbW 2 7 tpW dpW rpW fpW).2.1
      (by decide)).1,
    ((C2_update_nonexistent_is_404_no_side_effect dbW 2 7 tpW dpW rpW fpW).2.1
      (by decide)).2⟩,
   ⟨by decide,
    ((C2_update_nonexistent_is_404_no_side_effect dbW 2 7 tpW dpW rpW fpW).2.2.2
      (by decide)).1,
    ((C2_update_nonexistent_is_404_no_side_effect dbW 2 7 tpW dpW rpW fpW).2.2.2
      (by decide)).2⟩,
   ⟨by decide,
    ((C2_update_nonexistent_is_404_no_side_effect dbW 99 7 tpW dpW rpW fpW).2.2.1
      (by decide)).1,
    ((C2_update_nonexistent_is_404_no_side_effect dbW 99 7 tpW dpW rpW fpW).2.2.1
      (by decide)).2⟩⟩

/-- C4: for every entity type, `updated_at` is null at creation, and every
successful update sets `updated_at` to the mutation time (hence non-null
afterwards). -/
theorem C4_updated_at_null_until_update (db : DB) (id now : Nat)
    (tp : TaskCreate) (dp : DepartmentCreate) (rp : RoleCreate) (fp : FuncCreate) :
    ((Crud.create_task db tp now).1.updated_at = none ∧
     ∀ t, (Crud.update_task db id tp now).1 = some t → t.updated_at = some now) ∧
    ((Crud.create_department db dp now).1.updated_at = none ∧
     ∀ d, (Crud.update_department db id dp now).1 = some d →
       d.updated_at = some now) ∧
    ((Crud.create_role db rp now).1.updated_at = none ∧
     ∀ r, (Crud.update_role db id rp now).1 = some r → r.updated_at = some now) ∧
    ((Crud.create_function db fp now).1.updated_at = none ∧
     ∀ f, (Crud.update_function db id fp now).1 = some f →
       f.updated_at = some now) := by
  refine ⟨⟨rfl, ?_⟩, ⟨rfl, ?_⟩, ⟨rfl, ?_⟩, ⟨rfl, ?_⟩⟩
  · intro t ht
    unfold Crud.update_task at ht
    cases hg : (Crud.get_task db id).1 with
    | none => rw [hg] at ht; simp at ht
    | some t0 =>
      rw [hg] at ht
      simp at ht
      rw [← ht]
      rfl
  · intro d hd
    unfold Crud.update_department at hd
    cases hg : (Crud.get_department db id).1 with
    | none => rw [hg] at hd; simp at hd
    | some d0 =>
      rw [hg] at hd
      simp at hd
      rw [← hd]
      rfl
  · intro r hr
    unfold Crud.update_role at hr
    cases hg : (Crud.get_role db id).1 with
    | none => rw [hg] at hr; simp at hr
    | some r0 =>
      rw [hg] at hr
      simp at hr
      rw [← hr]
      rfl
  · intro f hf
    unfold Crud.update_function at hf
    cases hg : (Crud.get_function db id).1 with
    | none => rw [hg] at hf; simp at hf
    | some f0 =>
      rw [hg] at hf
      simp at hf
      rw [← hf]
      rfl

/-- Witness for C4: the sample task has null `updated_at` at creation, and
updating it at time 7 yields `updated_at = some 7`. -/
theorem C4_witness :
    (Crud.create_task dbW tpW 5).1.updated_at = none ∧
    (Crud.update_task dbW 1 tpW 7).1 = some tU ∧
    tU.updated_at = some 7 :=
  ⟨(C4_updated_at_null_until_update dbW 1 5 tpW dpW rpW fpW).1.1,
   by decide,
   (C4_updated_at_null_until_update dbW 1 7 tpW dpW rpW fpW).1.2 tU (by decide)⟩

/-- C9: for every entity type, a successful update changes only base fields
and `updated_at`: the updated entity keeps the id and `created_at` of the
entity that was stored before the update. -/
theorem C9_update_preserves_id_and_created_at (db : DB) (id now : Nat)
    (tp : TaskCreate) (dp : DepartmentCreate) (rp : RoleCreate) (fp : FuncCreate) :
    (∀ t0 t1, (Crud.get_task db id).1 = some t0 →
       (Crud.update_task db id tp now).1 = some t1 →
       t1.id = t0.id ∧ t1.created_at = t0.created_at) ∧
    (∀ d0 d1, (Crud.get_department db id).1 = some d0 →
       (Crud.update_department db id dp now).1 = some d1 →
       d1.id = d0.id ∧ d1.created_at = d0.created_at) ∧
    (∀ r0 r1, (Crud.get_role db id).1 = some r0 →
       (Crud.update_role db id rp now).1 = some r1 →
       r1.id = r0.id ∧ r1.created_at = r0.created_at) ∧
    (∀ f0 f1, (Crud.get_function db id).1 = some f0 →
       (Crud.update_function db id fp now).1 = some f1 →
       f1.id = f0.id ∧ f1.created_at = f0.created_at) := by
  refine ⟨?_, ?_, ?_, ?_⟩
  · intro t0 t1 h0 h1
    unfold Crud.update_task at h1
    rw [h0] at h1
    simp at h1
    rw [← h1]
    exact ⟨rfl, rfl⟩
  · intro d0 d1 h0 h1
    unfold Crud.update_department at h1
    rw [h0] at h1
    simp at h1
    rw [← h1]
    exact ⟨rfl, rfl⟩
  · intro r0 r1 h0 h1
    unfold Crud.update_role at h1
    rw [h0] at h1
    simp at h1
    rw [← h1]
    exact ⟨rfl, rfl⟩
  · intro f0 f1 h0 h1
    unfold Crud.update_function at h1
    rw [h0] at h1
    simp at h1
    rw [← h1]
    exact ⟨rfl, rfl⟩

/-- Witness for C9: updating the sample task keeps its id and
`created_at`. -/
theorem C9_witness :
    (Crud.get_task dbW 1).1 = some tW ∧
    (Crud.update_task dbW 1 tpW 7).1 = some tU ∧
    tU.id = tW.id ∧ tU.created_at = tW.created_at :=
  ⟨by decide, by decide,
   (C9_update_preserves_id_and_created_at dbW 1 7 tpW dpW rpW fpW).1 tW tU
     (by decide) (by decide)⟩

/-- C3: for every entity type, in a well-formed database `get` applied to
the id of a freshly created entity returns exactly that entity. -/
theorem C3_create_then_get_round_trip (db : DB) (now : Nat)
    (tp : TaskCreate) (dp : DepartmentCreate) (rp : RoleCreate) (fp : FuncCreate)
    (hWF : WF db) :
    (Crud.get_task (Crud.create_task db tp now).2
       (Crud.create_task db tp now).1.id).1 = some (Crud.create_task db tp now).1 ∧
    (Crud.get_department (Crud.create_department db dp now).2
       (Crud.create_department db dp now).1.id).1
      = some (Crud.create_department db dp now).1 ∧
    (Crud.get_role (Crud.create_role db rp now).2
       (Crud.create_role db rp now).1.id).1 = some (Crud.create_role db rp now).1 ∧
    (Crud.get_function (Crud.create_function db fp now).2
       (Crud.create_function db fp now).1.id).1
      = some (Crud.create_function db fp now).1 := by
  obtain ⟨hT1, hT2, hD1, hD2, hR1, hR2, hF1, hF2, hFK1, hFK2⟩ := hWF
  refine ⟨?_, ?_, ?_, ?_⟩
  · have hn : db.tasks.find? (fun x => x.id == db.nextTaskId) = none := by
      rw [List.find?_eq_none]
      intro x hx hbeq
      exact absurd (beq_iff_eq.mp hbeq) (Nat.ne_of_lt (hT2 x hx))
    simp [Crud.create_task, Crud.get_task, List.find?_append, hn]
  · have hn : db.departments.find? (fun x => x.id == db.nextDepartmentId) = none := by
      rw [List.find?_eq_none]
      intro x hx hbeq
      exact absurd (beq_iff_eq.mp hbeq) (Nat.ne_of_lt (hD2 x hx))
    simp [Crud.create_department, Crud.get_department, List.find?_append, hn]
  · have hn : db.roles.find? (fun x => x.id == db.nextRoleId) = none := by
      rw [List.find?_eq_none]
      intro x hx hbeq
      exact absurd (beq_iff_eq.mp hbeq) (Nat.ne_of_lt (hR2 x hx))
    simp [Crud.create_role, Crud.get_role, List.find?_append, hn]
  · have hn : db.functions.find? (fun x => x.id == db.nextFuncId) = none := by
      rw [List.find?_eq_none]
      intro x hx hbeq
      exact absurd (beq_iff_eq.mp hbeq) (Nat.ne_of_lt (hF2 x hx))
    simp [Crud.create_function, Crud.get_function, List.find?_append, hn]

/-- Witness for C3: the sample database is well-formed and the round trip
holds there for all four entity types. -/
theorem C3_witness :
    WF dbW ∧
    ((Crud.get_task (Crud.create_task dbW tpW 5).2
        (Crud.create_task dbW tpW 5).1.id).1 = some (Crud.create_task dbW tpW 5).1 ∧
     (Crud.get_department (Crud.create_department dbW dpW 5).2
        (Crud.create_department dbW dpW 5).1.id).1
       = some (Crud.create_department dbW dpW 5).1 ∧
     (Crud.get_role (Crud.create_role dbW rpW 5).2
        (Crud.create_role dbW rpW 5).1.id).1 = some (Crud.create_role dbW rpW 5).1 ∧
     (Crud.get_function (Crud.create_function dbW fpW 5).2
        (Crud.create_function dbW fpW 5).1.id).1
       = some (Crud.create_function dbW fpW 5).1) :=
  ⟨by decide, C3_create_then_get_round_trip dbW 5 tpW dpW rpW fpW (by decide)⟩

/-- C6: `GET /departments/{id}` returns the nested shape embedding exactly
the department's roles and `GET /roles/{id}` the nested shape embedding
exactly the role's functions; both fail with HTTP 404 when no entity with
that id exists. -/
theorem C6_nested_get_shapes (db : DB) (id : Nat) :
    (∀ d, (Crud.get_department db id).1 = some d →
       (OrgRouters.read_department db id).1
         = Except.ok (departmentWithRoles db d) ∧
       ∀ r, r ∈ (departmentWithRoles db d).roles ↔
         r ∈ db.roles ∧ r.department_id = id) ∧
    ((Crud.get_department db id).1 = none →
       (OrgRouters.read_department db id).1 = Except.error 404) ∧
    (∀ r0, (Crud.get_role db id).1 = some r0 →
       (OrgRouters.read_role db id).1 = Except.ok (roleWithFunctions db r0) ∧
       ∀ f, f ∈ (roleWithFunctions db r0).functions ↔
         f ∈ db.functions ∧ f.role_id = id) ∧
    ((Crud.get_role db id).1 = none →
       (OrgRouters.read_role db id).1 = Except.error 404) := by
  refine ⟨?_, ?_, ?_, ?_⟩
  · intro d hd
    have hp : Crud.get_department db id = (some d, db) := by
      unfold Crud.get_department at hd ⊢
      simp only at hd
      rw [hd]
    have hid : d.id = id := by
      have := List.find?_some (hd : db.departments.find? (fun x => x.id == id) = some d)
      exact beq_iff_eq.mp this
    constructor
    · unfold OrgRouters.read_department
      rw [hp]
    · intro r
      unfold departmentWithRoles
      simp only [List.mem_filter, hid]
      exact ⟨fun ⟨h1, h2⟩ => ⟨h1, beq_iff_eq.mp h2⟩,
             fun ⟨h1, h2⟩ => ⟨h1, beq_iff_eq.mpr h2⟩⟩
  · intro hd
    have hp : Crud.get_department db id = (none, db) := by
      unfold Crud.get_department at hd ⊢
      simp only at hd
      rw [hd]
    unfold OrgRouters.read_department
    rw [hp]
  · intro r0 hr
    have hp : Crud.get_role db id = (some r0, db) := by
      unfold Crud.get_role at hr ⊢
      simp only at hr
      rw [hr]
    have hid : r0.id = id := by
      have := List.find?_some (hr : db.roles.find? (fun x => x.id == id) = some r0)
      exact beq_iff_eq.mp this
    constructor
    · unfold OrgRouters.read_role
      rw [hp]
    · intro f
      unfold roleWithFunctions
      simp only [List.mem_filter, hid]
      exact ⟨fun ⟨h1, h2⟩ => ⟨h1, beq_iff_eq.mp h2⟩,
             fun ⟨h1, h2⟩ => ⟨h1, beq_iff_eq.mpr h2⟩⟩
  · intro hr
    have hp : Crud.get_role db id = (none, db) := by
      unfold Crud.get_role at hr ⊢
      simp only at hr
      rw [hr]
    unfold OrgRouters.read_role
    rw [hp]

/-- Witness for C6: fetching the sample department returns the nested shape
with its two roles, fetching its first role returns the nested shape with
its function, and a missing id yields 404. -/
theorem C6_witness :
    ((Crud.get_department dbW 1).1 = some dW ∧
     (OrgRouters.read_department dbW 1).1 = Except.ok (departmentWithRoles dbW dW) ∧
     (departmentWithRoles dbW dW).roles = [rW1, rW2] ∧
     rW1 ∈ (departmentWithRoles dbW dW).roles ∧
     (Crud.get_department dbW 99).1 = none ∧
     (OrgRouters.read_department dbW 99).1 = Except.error 404) ∧
    ((Crud.get_role dbW 1).1 = some rW1 ∧
     (OrgRouters.read_role dbW 1).1 = Except.ok (roleWithFunctions dbW rW1) ∧
     (roleWithFunctions dbW rW1).functions = [fW] ∧
     (Crud.get_role dbW 99).1 = none ∧
     (OrgRouters.read_role dbW 99).1 = Except.error 404) :=
  ⟨⟨by decide,
    ((C6_nested_get_shapes dbW 1).1 dW (by decide)).1,
    by decide,
    ((C6_nested_get_shapes dbW 1).1 dW (by decide)).2 rW1 |>.mpr ⟨by decide, by decide⟩,
    by decide,
    (C6_nested_get_shapes dbW 99).2.1 (by decide)⟩,
   ⟨by decide,
    ((C6_nested_get_shapes dbW 1).2.2.1 rW1 (by decide)).1,
    by decide,
    by decide,
    (C6_nested_get_shapes dbW 99).2.2.2 (by decide)⟩⟩

/-- C7: in a well-formed database (foreign keys intact), the child-listing
endpoints on a parent id that matches no Department (resp. Role) answer
with an empty sequence and never with a not-found error — parent existence
is not validated. -/
theorem C7_child_listing_absent_parent_empty (db : DB) (id skip limit : Nat)
    (hWF : WF db) :
    ((Crud.get_department db id).1 = none →
       OrgRouters.read_roles_by_department db id skip limit = (Except.ok [], db)) ∧
    ((Crud.get_role db id).1 = none →
       OrgRouters.read_functions_by_role db id skip limit = (Except.ok [], db)) := by
  obtain ⟨hT1, hT2, hD1, hD2, hR1, hR2, hF1, hF2, hFK1, hFK2⟩ := hWF
  constructor
  · intro hd
    have hnone : ∀ x ∈ db.departments, ¬(x.id == id) = true :=
      List.find?_eq_none.mp hd
    have hfil : db.roles.filter (fun r => r.department_id == id) = [] := by
      rw [List.filter_eq_nil_iff]
      intro r hr hbeq
      obtain ⟨d, hdmem, hdid⟩ := hFK1 r hr
      exact hnone d hdmem (beq_iff_eq.mpr (hdid.trans (beq_iff_eq.mp hbeq)))
    unfold OrgRouters.read_roles_by_department Crud.get_roles_by_department
    rw [hfil]
    simp
  · intro hr
    have hnone : ∀ x ∈ db.roles, ¬(x.id == id) = true :=
      List.find?_eq_none.mp hr
    have hfil : db.functions.filter (fun f => f.role_id == id) = [] := by
      rw [List.filter_eq_nil_iff]
      intro f hf hbeq
      obtain ⟨r, hrmem, hrid⟩ := hFK2 f hf
      exact hnone r hrmem (beq_iff_eq.mpr (hrid.trans (beq_iff_eq.mp hbeq)))
    unfold OrgRouters.read_functions_by_role Crud.get_functions_by_role
    rw [hfil]
    simp

/-- Witness for C7: in the sample database no department or role has id 99,
and both child listings on 99 answer with the empty sequence. -/
theorem C7_witness :
    WF dbW ∧
    (Crud.get_department dbW 99).1 = none ∧
    (Crud.get_role dbW 99).1 = none ∧
    OrgRouters.read_roles_by_department dbW 99 0 100 = (Except.ok [], dbW) ∧
    OrgRouters.read_functions_by_role dbW 99 0 100 = (Except.ok [], dbW) :=
  ⟨by decide, by decide, by decide,
   (C7_child_listing_absent_parent_empty dbW 99 0 100 (by decide)).1 (by decide),
   (C7_child_listing_absent_parent_empty dbW 99 0 100 (by decide)).2 (by decide)⟩

/-- A key strictly below the table's next autoincrement value is fresh:
it does not occur in the key column. -/
lemma fresh_key_not_mem {α : Type} (f : α → Nat) (l : List α) (n : Nat)
    (h : ∀ x ∈ l, f x < n) : n ∉ l.map f := by
  intro hmem
  obtain ⟨x, hx, hfx⟩ := List.mem_map.mp hmem
  exact absurd hfx (Nat.ne_of_lt (h x hx))

/-- Appending a row with a fresh key keeps the key column duplicate-free. -/
lemma nodup_map_append_fresh {α : Type} (f : α → Nat) (l : List α) (a : α)
    (hl : (l.map f).Nodup) (hfresh : ∀ x ∈ l, f x < f a) :
    ((l ++ [a]).map f).Nodup := by
  rw [List.map_append, List.nodup_append]
  refine ⟨hl, List.nodup_singleton _, ?_⟩
  intro b hb hbmem
  obtain ⟨x, hx, hfx⟩ := List.mem_map.mp hb
  simp only [List.map_cons, List.map_nil, List.mem_singleton] at hbmem
  subst hbmem
  exact absurd hfx (Nat.ne_of_lt (hfresh x hx))

/-- A row-wise rewrite of a table that does not touch a column leaves that
column unchanged. -/
lemma map_key_of_map_update {α : Type} (f : α → Nat) (upd : α → α)
    (h : ∀ x, f (upd x) = f x) (l : List α) :
    (l.map upd).map f = l.map f := by
  induction l with
  | nil => rfl
  | cons a l ih => simp [h a, ih]

/-- C8: for every entity type in a well-formed database, `create` assigns
the id from the table's autoincrement counter, that id is fresh, the id
column stays duplicate-free, `update` leaves the id column exactly as it
was, and after a `delete` every remaining row is one of the original rows
(so no operation ever changes an existing entity's id). -/
theorem C8_ids_storage_assigned_unique_immutable (db : DB) (id now : Nat)
    (tp : TaskCreate) (dp : DepartmentCreate) (rp : RoleCreate) (fp : FuncCreate)
    (hWF : WF db) :
    ((Crud.create_task db tp now).1.id = db.nextTaskId ∧
     (Crud.create_task db tp now).1.id ∉ db.tasks.map Task.id ∧
     ((Crud.create_task db tp now).2.tasks.map Task.id).Nodup ∧
     (Crud.update_task db id tp now).2.tasks.map Task.id = db.tasks.map Task.id ∧
     ∀ x ∈ (Crud.delete_task db id).2.tasks, x ∈ db.tasks) ∧
    ((Crud.create_department db dp now).1.id = db.nextDepartmentId ∧
     (Crud.create_department db dp now).1.id ∉ db.departments.map Department.id ∧
     ((Crud.create_department db dp now).2.departments.map Department.id).Nodup ∧
     (Crud.update_department db id dp now).2.departments.map Department.id
       = db.departments.map Department.id ∧
     ∀ x ∈ (Crud.delete_department db id).2.departments, x ∈ db.departments) ∧
    ((Crud.create_role db rp now).1.id = db.nextRoleId ∧
     (Crud.create_role db rp now).1.id ∉ db.roles.map Role.id ∧
     ((Crud.create_role db rp now).2.roles.map Role.id).Nodup ∧
     (Crud.update_role db id rp now).2.roles.map Role.id = db.roles.map Role.id ∧
     ∀ x ∈ (Crud.delete_role db id).2.roles, x ∈ db.roles) ∧
    ((Crud.create_function db fp now).1.id = db.nextFuncId ∧
     (Crud.create_function db fp now).1.id ∉ db.functions.map Func.id ∧
     ((Crud.create_function db fp now).2.functions.map Func.id).Nodup ∧
     (Crud.update_function db id fp now).2.functions.map Func.id
       = db.functions.map Func.id ∧
     ∀ x ∈ (Crud.delete_function db id).2.functions, x ∈ db.functions) := by
  obtain ⟨hT1, hT2, hD1, hD2, hR1, hR2, hF1, hF2, hFK1, hFK2⟩ := hWF
  refine ⟨⟨rfl, ?_, ?_, ?_, ?_⟩, ⟨rfl, ?_, ?_, ?_, ?_⟩,
          ⟨rfl, ?_, ?_, ?_, ?_⟩, ⟨rfl, ?_, ?_, ?_, ?_⟩⟩
  · exact fresh_key_not_mem Task.id db.tasks db.nextTaskId hT2
  · exact nodup_map_append_fresh Task.id db.tasks (Crud.create_task db tp now).1
      hT1 hT2
  · unfold Crud.update_task
    cases hg : (Crud.get_task db id).1 with
    | none => rfl
    | some t =>
      exact map_key_of_map_update Task.id _
        (fun x => by by_cases hx : x.id == id <;> simp [Crud.applyTaskUpdate, hx])
        db.tasks
  · unfold Crud.delete_task
    cases hg : (Crud.get_task db id).1 with
    | none => exact fun x hx => hx
    | some t => exact fun x hx => List.mem_of_mem_filter hx
  · exact fresh_key_not_mem Department.id db.departments db.nextDepartmentId hD2
  · exact nodup_map_append_fresh Department.id db.departments
      (Crud.create_department db dp now).1 hD1 hD2
  · unfold Crud.update_department
    cases hg : (Crud.get_department db id).1 with
    | none => rfl
    | some d =>
      exact map_key_of_map_update Department.id _
        (fun x => by by_cases hx : x.id == id <;> simp [Crud.applyDepartmentUpdate, hx])
        db.departments
  · unfold Crud.delete_department
    cases hg : (Crud.get_department db id).1 with
    | none => exact fun x hx => hx
    | some d => exact fun x hx => List.mem_of_mem_filter hx
  · exact fresh_key_not_mem Role.id db.roles db.nextRoleId hR2
  · exact nodup_map_append_fresh Role.id db.roles (Crud.create_role db rp now).1
      hR1 hR2
  · unfold Crud.update_role
    cases hg : (Crud.get_role db id).1 with
    | none => rfl
    | some r =>
      exact map_key_of_map_update Role.id _
        (fun x => by by_cases hx : x.id == id <;> simp [Crud.applyRoleUpdate, hx])
        db.roles
  · unfold Crud.delete_role
    cases hg : (Crud.get_role db id).1 with
    | none => exact fun x hx => hx
    | some r => exact fun x hx => List.mem_of_mem_filter hx
  · exact fresh_key_not_mem Func.id db.functions db.nextFuncId hF2
  · exact nodup_map_append_fresh Func.id db.functions
      (Crud.create_function db fp now).1 hF1 hF2
  · unfold Crud.update_function
    cases hg : (Crud.get_function db id).1 with
    | none => rfl
    | some f =>
      exact map_key_of_map_update Func.id _
        (fun x => by by_cases hx : x.id == id <;> simp [Crud.applyFuncUpdate, hx])
        db.functions
  · unfold Crud.delete_function
    cases hg : (Crud.get_function db id).1 with
    | none => exact fun x hx => hx
    | some f => exact fun x hx => List.mem_of_mem_filter hx

/-- Witness for C8: the id invariants instantiated on the sample
database. -/
theorem C8_witness :
    WF dbW ∧
    (((Crud.create_task dbW tpW 7).1.id = dbW.nextTaskId ∧
      (Crud.create_task dbW tpW 7).1.id ∉ dbW.tasks.map Task.id ∧
      ((Crud.create_task dbW tpW 7).2.tasks.map Task.id).Nodup ∧
      (Crud.update_task dbW 1 tpW 7).2.tasks.map Task.id = dbW.tasks.map Task.id ∧
      ∀ x ∈ (Crud.delete_task dbW 1).2.tasks, x ∈ dbW.tasks) ∧
     ((Crud.create_department dbW dpW 7).1.id = dbW.nextDepartmentId ∧
      (Crud.create_department dbW dpW 7).1.id ∉ dbW.departments.map Department.id ∧
      ((Crud.create_department dbW dpW 7).2.departments.map Department.id).Nodup ∧
      (Crud.update_department dbW 1 dpW 7).2.departments.map Department.id
        = dbW.departments.map Department.id ∧
      ∀ x ∈ (Crud.delete_department dbW 1).2.departments, x ∈ dbW.departments) ∧
     ((Crud.create_role dbW rpW 7).1.id = dbW.nextRoleId ∧
      (Crud.create_role dbW rpW 7).1.id ∉ dbW.roles.map Role.id ∧
      ((Crud.create_role dbW rpW 7).2.roles.map Role.id).Nodup ∧
      (Crud.update_role dbW 1 rpW 7).2.roles.map Role.id = dbW.roles.map Role.id ∧
      ∀ x ∈ (Crud.delete_role dbW 1).2.roles, x ∈ dbW.roles) ∧
     ((Crud.create_function dbW fpW 7).1.id = dbW.nextFuncId ∧
      (Crud.create_function dbW fpW 7).1.id ∉ dbW.functions.map Func.id ∧
      ((Crud.create_function dbW fpW 7).2.functions.map Func.id).Nodup ∧
      (Crud.update_function dbW 1 fpW 7).2.functions.map Func.id
        = dbW.functions.map Func.id ∧
      ∀ x ∈ (Crud.delete_function dbW 1).2.functions, x ∈ dbW.functions)) :=
  ⟨by decide,
   C8_ids_storage_assigned_unique_immutable dbW 1 7 tpW dpW rpW fpW (by decide)⟩

/-- C1: deleting a Department with N roles and M functions under those
roles removes exactly N+M+1 rows (the department, its roles, and
transitively the functions of those roles), and afterwards `get` on any
removed role or function (and on the department itself) is not-found. -/
theorem C1_delete_department_cascades (db : DB) (did : Nat) (d : Department)
    (hWF : WF db) (hget : (Crud.get_department db did).1 = some d) :
    rowCount (Crud.delete_department db did).2 +
        ((db.roles.filter (fun r => r.department_id == did)).length +
         (db.functions.filter (fun f =>
            ((db.roles.filter (fun r => r.department_id == did)).map Role.id).contains
              f.role_id)).length + 1)
      = rowCount db ∧
    (∀ r ∈ db.roles.filter (fun r => r.department_id == did),
       (Crud.get_role (Crud.delete_department db did).2 r.id).1 = none) ∧
    (∀ f ∈ db.functions.filter (fun f =>
        ((db.roles.filter (fun r => r.department_id == did)).map Role.id).contains
          f.role_id),
       (Crud.get_function (Crud.delete_department db did).2 f.id).1 = none) ∧
    (Crud.get_department (Crud.delete_department db did).2 did).1 = none := by
  obtain ⟨hT1, hT2, hD1, hD2, hR1, hR2, hF1, hF2, hFK1, hFK2⟩ := hWF
  have hfind : db.departments.find? (fun x => x.id == did) = some d := hget
  have hdmem : d ∈ db.departments := List.mem_of_find?_eq_some hfind
  have hdid : d.id = did := by
    have h := List.find?_some hfind
    exact beq_iff_eq.mp h
  have hdel : (Crud.delete_department db did).2 =
      { db with
        departments := db.departments.filter (fun x => x.id != did),
        roles := db.roles.filter (fun r => r.department_id != did),
        functions := db.functions.filter (fun f =>
          !(((db.roles.filter (fun r => r.department_id == did)).map Role.id).contains
              f.role_id)) } := by
    unfold Crud.delete_department
    rw [hget]
  have hbD : (fun x : Department => x.id != did)
      = (fun x : Department => !(x.id == did)) := rfl
  have hbR : (fun r : Role => r.department_id != did)
      = (fun r : Role => !(r.department_id == did)) := rfl
  refine ⟨?_, ?_, ?_, ?_⟩
  · have hone : db.departments.filter (fun x => x.id == did) = [d] := by
      have h := filter_key_eq_singleton Department.id db.departments hD1 d hdmem
      rw [hdid] at h
      exact h
    have honelen : (db.departments.filter (fun x => x.id == did)).length = 1 := by
      rw [hone]
      rfl
    have hsplitD :=
      length_filter_add_length_filter_not (fun x : Department => x.id == did)
        db.departments
    have hsplitR :=
      length_filter_add_length_filter_not (fun r : Role => r.department_id == did)
        db.roles
    have hsplitF :=
      length_filter_add_length_filter_not (fun f : Func =>
        ((db.roles.filter (fun r => r.department_id == did)).map Role.id).contains
          f.role_id) db.functions
    rw [hdel]
    unfold rowCount
    simp only [hbD, hbR]
    omega
  · intro r hrmem
    have hr0 : r ∈ db.roles := (List.mem_filter.mp hrmem).1
    have hrdid : r.department_id = did := beq_iff_eq.mp (List.mem_filter.mp hrmem).2
    rw [hdel]
    show ((db.roles.filter (fun x => x.department_id != did)).find?
      (fun x => x.id == r.id)) = none
    rw [List.find?_eq_none]
    intro x hx hbeq
    have hx0 : x ∈ db.roles := (List.mem_filter.mp hx).1
    have hxne : x.department_id ≠ did := bne_iff_ne.mp (List.mem_filter.mp hx).2
    have hxr : x = r :=
      List.inj_on_of_nodup_map hR1 hx0 hr0 (beq_iff_eq.mp hbeq)
    exact hxne (hxr ▸ hrdid)
  · intro f hfmem
    have hf0 : f ∈ db.functions := (List.mem_filter.mp hfmem).1
    have hfin : ((db.roles.filter (fun r => r.department_id == did)).map
        Role.id).contains f.role_id = true := (List.mem_filter.mp hfmem).2
    rw [hdel]
    show ((db.functions.filter (fun x =>
        !(((db.roles.filter (fun r => r.department_id == did)).map Role.id).contains
            x.role_id))).find? (fun x => x.id == f.id)) = none
    rw [List.find?_eq_none]
    intro x hx hbeq
    have hx0 : x ∈ db.functions := (List.mem_filter.mp hx).1
    have hxne := (List.mem_filter.mp hx).2
    have hxf : x = f :=
      List.inj_on_of_nodup_map hF1 hx0 hf0 (beq_iff_eq.mp hbeq)
    rw [hxf, hfin] at hxne
    exact Bool.false_ne_true (by exact hxne)
  · rw [hdel]
    show ((db.departments.filter (fun x => x.id != did)).find?
      (fun x => x.id == did)) = none
    rw [List.find?_eq_none]
    intro x hx hbeq
    exact bne_iff_ne.mp (List.mem_filter.mp hx).2 (beq_iff_eq.mp hbeq)

/-- Witness for C1: deleting the sample department (2 roles, 1 function)
removes 2+1+1 rows and all removed rows become not-found. -/
theorem C1_witness :
    WF dbW ∧ (Crud.get_department dbW 1).1 = some dW ∧
    (rowCount (Crud.delete_department dbW 1).2 +
        ((dbW.roles.filter (fun r => r.department_id == 1)).length +
         (dbW.functions.filter (fun f =>
            ((dbW.roles.filter (fun r => r.department_id == 1)).map Role.id).contains
              f.role_id)).length + 1)
      = rowCount dbW ∧
     (∀ r ∈ dbW.roles.filter (fun r => r.department_id == 1),
        (Crud.get_role (Crud.delete_department dbW 1).2 r.id).1 = none) ∧
     (∀ f ∈ dbW.functions.filter (fun f =>
         ((dbW.roles.filter (fun r => r.department_id == 1)).map Role.id).contains
           f.role_id),
        (Crud.get_function (Crud.delete_department dbW 1).2 f.id).1 = none) ∧
     (Crud.get_department (Crud.delete_department dbW 1).2 1).1 = none) :=
  ⟨by decide, by decide,
   C1_delete_department_cascades dbW 1 dW (by decide) (by decide)⟩
